import Mathlib

/-!
Verification of the ai-stock-signals repository against its specification.

The repository is a small crypto price-notification service:
  * `src/telegram_bot.js` — a polling alert loop (thresholds, cooldown,
    message formatting, a Telegram send adapter);
  * `src/api/handler.js` — an HTTP snapshot responder (two handler
    variants in one file: the main module handler and a minimal
    cron/testing handler), with pure threshold classifiers
    (`getSentiment`, `getAction`, `calculateConfidence`, `getRiskLevel`);
  * `src/unnamed/part_000`, `src/unnamed/part_001` — two further
    minimal handler variants.

The embedding below models numbers as rationals (`ℚ`).  JavaScript uses
IEEE doubles, but every constant involved (thresholds 2, 3, 5, 10 and
the fallback records) is exactly representable and every claim below is
about order comparisons with those constants, which doubles decide
exactly as the rationals do.  The one place where IEEE semantics matter
(0/0 producing NaN, and NaN comparing false against everything) is
modelled explicitly with `Option ℚ`, where `none` stands for NaN.
-/

namespace StockSignals

/-- A price record, as produced by `fetchBinanceData` / stored in the
`prices` table: last price and 24-hour percent change.  The source
record also carries the symbol string (and, in the main handler,
high/low/volume); no claim refers to those fields, so they are not
carried here. -/
structure Quote where
  price : ℚ
  change : ℚ
deriving DecidableEq

/-- `CONFIG.thresholds.alertPercent` in src/telegram_bot.js (line 16). -/
def alertPercent : ℚ := 5

/-- `CONFIG.thresholds.warningPercent` in src/telegram_bot.js (line 17). -/
def warningPercent : ℚ := 3

/-- The status label computed inside `formatMessage`
(src/telegram_bot.js lines 50-51):
`Math.abs(data.change) >= alertPercent ? '🚨 警报' :
 Math.abs(data.change) >= warningPercent ? '⚠️ 提醒' : '✅ 正常'`.
The rest of `formatMessage` is string interpolation around this label
and is not referenced by any claim. -/
def messageStatus (data : Quote) : String :=
  if |data.change| ≥ alertPercent then "🚨 警报"
  else if |data.change| ≥ warningPercent then "⚠️ 提醒"
  else "✅ 正常"

/-- `getSentiment` from src/api/handler.js lines 244-250 (labels carry
emoji suffixes there). -/
def getSentiment (change : ℚ) : String :=
  if change ≥ 5 then "EUPHORIA 🚀"
  else if change ≥ 2 then "OPTIMISTIC 😊"
  else if change ≥ -2 then "NEUTRAL 😐"
  else if change ≥ -5 then "PESSIMISTIC 😟"
  else "PANIC 📉"

/-- `getSentiment` from src/unnamed/part_000 lines 162-168 and
src/unnamed/part_001 lines 45-47 (plain labels, same breakpoints). -/
def getSentimentPlain (change : ℚ) : String :=
  if change ≥ 5 then "EUPHORIA"
  else if change ≥ 2 then "OPTIMISTIC"
  else if change ≥ -2 then "NEUTRAL"
  else if change ≥ -5 then "PESSIMISTIC"
  else "PANIC"

/-- C2: with the configured thresholds `warningPercent = 3` and
`alertPercent = 5` (so warning < alert), the status label of
`formatMessage` is the alert tier when `abs(change) ≥ alertPercent`,
the warning tier when `warningPercent ≤ abs(change) < alertPercent`,
and the normal tier otherwise. -/
theorem formatMessage_status_tiers (d : Quote) :
    warningPercent = 3 ∧ alertPercent = 5 ∧ warningPercent < alertPercent ∧
    (alertPercent ≤ |d.change| → messageStatus d = "🚨 警报") ∧
    (warningPercent ≤ |d.change| ∧ |d.change| < alertPercent →
      messageStatus d = "⚠️ 提醒") ∧
    (|d.change| < warningPercent → messageStatus d = "✅ 正常") := by
  refine ⟨rfl, rfl, by norm_num [warningPercent, alertPercent], ?_, ?_, ?_⟩ <;>
    intro h <;> simp only [messageStatus, alertPercent, warningPercent] at * <;>
    split_ifs <;> first | rfl | (exfalso; first | linarith [h.1, h.2] | linarith)

/-- Witness for `formatMessage_status_tiers` at concrete changes 6, 4 and 1. -/
theorem formatMessage_status_tiers_wit :
    messageStatus ⟨100, 6⟩ = "🚨 警报" ∧
    messageStatus ⟨100, 4⟩ = "⚠️ 提醒" ∧
    messageStatus ⟨100, 1⟩ = "✅ 正常" :=
  ⟨(formatMessage_status_tiers ⟨100, 6⟩).2.2.2.1 (by norm_num [alertPercent]),
   (formatMessage_status_tiers ⟨100, 4⟩).2.2.2.2.1
     (by norm_num [alertPercent, warningPercent]),
   (formatMessage_status_tiers ⟨100, 1⟩).2.2.2.2.2
     (by norm_num [warningPercent])⟩

/-- C3: `getSentiment` is a total function: every change value gets
exactly one of the five labels, the partition boundaries being at
−5, −2, 2 and 5.  Stated for both source copies (the plain-label copy
of part_000/part_001 and the emoji-label copy of the main handler):
each label is produced exactly on its interval of the partition. -/
theorem getSentiment_total_partition (c : ℚ) :
    (getSentimentPlain c = "EUPHORIA" ↔ 5 ≤ c) ∧
    (getSentimentPlain c = "OPTIMISTIC" ↔ 2 ≤ c ∧ c < 5) ∧
    (getSentimentPlain c = "NEUTRAL" ↔ -2 ≤ c ∧ c < 2) ∧
    (getSentimentPlain c = "PESSIMISTIC" ↔ -5 ≤ c ∧ c < -2) ∧
    (getSentimentPlain c = "PANIC" ↔ c < -5) ∧
    getSentimentPlain c ∈
      ["EUPHORIA", "OPTIMISTIC", "NEUTRAL", "PESSIMISTIC", "PANIC"] ∧
    (getSentiment c = "EUPHORIA 🚀" ↔ 5 ≤ c) ∧
    (getSentiment c = "OPTIMISTIC 😊" ↔ 2 ≤ c ∧ c < 5) ∧
    (getSentiment c = "NEUTRAL 😐" ↔ -2 ≤ c ∧ c < 2) ∧
    (getSentiment c = "PESSIMISTIC 😟" ↔ -5 ≤ c ∧ c < -2) ∧
    (getSentiment c = "PANIC 📉" ↔ c < -5) ∧
    getSentiment c ∈
      ["EUPHORIA 🚀", "OPTIMISTIC 😊", "NEUTRAL 😐", "PESSIMISTIC 😟",
       "PANIC 📉"] := by
  simp only [getSentimentPlain, getSentiment, ge_iff_le]
  split_ifs with h1 h2 h3 h4 <;>
    refine ⟨?_, ?_, ?_, ?_, ?_, by simp, ?_, ?_, ?_, ?_, ?_, by simp⟩ <;>
    simp <;>
    first
      | linarith
      | (constructor <;> linarith)
      | (intro h; linarith)

/-- `getAction` from src/api/handler.js lines 252-258. -/
def getAction (change : ℚ) : String :=
  if change ≥ 5 then "WAIT"
  else if change ≥ 2 then "OBSERVE"
  else if change ≥ -2 then "NEUTRAL"
  else if change ≥ -5 then "MONITOR"
  else "POTENTIAL_ENTRY"

/-- `getRiskLevel` from src/api/handler.js lines 270-275. -/
def getRiskLevel (change : ℚ) : String :=
  if |change| > 10 then "EXTREME"
  else if |change| > 5 then "HIGH"
  else if |change| > 2 then "MEDIUM"
  else "LOW"

/-- `calculateConfidence` from src/api/handler.js lines 260-268:
`volatility = coin.change; base = 0.6;
 abs > 10 → min(base+0.2, 0.95); abs > 5 → min(base+0.1, 0.85); else base`. -/
def calculateConfidence (coin : Quote) : ℚ :=
  let volatility := coin.change
  let base : ℚ := 3/5
  if |volatility| > 10 then min (base + 1/5) (19/20)
  else if |volatility| > 5 then min (base + 1/10) (17/20)
  else base

/-- The trend classifier of the /api/market handler
(src/api/handler.js line 95), as a function of the average change:
`avgChange > 0 ? UPTREND : avgChange < 0 ? DOWNTREND : SIDEWAYS`. -/
def marketTrend (avg : ℚ) : String :=
  if avg > 0 then "UPTREND" else if avg < 0 then "DOWNTREND" else "SIDEWAYS"

/-- `x` and `y` lie in the same cell of the partition of the line
induced by the breakpoint set `B` (same side of, and same coincidence
with, every breakpoint). -/
def SameSide (B : List ℚ) (x y : ℚ) : Prop :=
  ∀ b ∈ B, (b < x ↔ b < y) ∧ (x < b ↔ y < b)

/-- `f` is a pure threshold function with breakpoints in `B`: it is
constant on every cell of the partition induced by `B`. -/
def IsThresholdFun {α : Type} (B : List ℚ) (f : ℚ → α) : Prop :=
  ∀ x y : ℚ, SameSide B x y → f x = f y

/-- The breakpoint set claimed by the spec for all derived fields. -/
def claimedBreaks : List ℚ := [-5, -2, 0, 2, 5]

/-- The breakpoint set the code actually uses across the derived
fields (risk and confidence also switch at ±10). -/
def actualBreaks : List ℚ := [-10, -5, -2, 0, 2, 5, 10]

theorem sameSide_le {B : List ℚ} {x y b : ℚ} (h : SameSide B x y)
    (hb : b ∈ B) : (b ≤ x ↔ b ≤ y) ∧ (x ≤ b ↔ y ≤ b) := by
  rcases h b hb with ⟨h1, h2⟩
  constructor
  · rw [← not_lt, ← not_lt]; exact not_congr h2
  · rw [← not_lt, ← not_lt]; exact not_congr h1

theorem sameSide_abs_gt {B : List ℚ} {x y b : ℚ} (h : SameSide B x y)
    (hb : b ∈ B) (hnb : -b ∈ B) : (b < |x| ↔ b < |y|) := by
  rcases h b hb with ⟨h1, _⟩
  rcases h (-b) hnb with ⟨_, h2⟩
  rw [lt_abs, lt_abs, h1, lt_neg, h2, ← lt_neg]

instance (B : List ℚ) (x y : ℚ) : Decidable (SameSide B x y) := by
  unfold SameSide; infer_instance

/-- C6 counterexample: the risk tier and the confidence are not
threshold functions over the claimed breakpoint set {−5,−2,0,+2,+5}:
6 and 11 lie in the same cell of that partition (both above every
claimed breakpoint), yet `getRiskLevel` maps them to different labels
and `calculateConfidence` to different values, because both functions
also switch at ±10. -/
theorem derived_fields_beyond_claimed_breaks :
    ¬ IsThresholdFun claimedBreaks getRiskLevel ∧
    ¬ IsThresholdFun claimedBreaks (fun c => calculateConfidence ⟨0, c⟩) ∧
    getRiskLevel 6 = "HIGH" ∧ getRiskLevel 11 = "EXTREME" ∧
    calculateConfidence ⟨0, 6⟩ = 7/10 ∧ calculateConfidence ⟨0, 11⟩ = 4/5 := by
  refine ⟨?_, ?_, by decide, by decide, by norm_num [calculateConfidence, min_def],
    by norm_num [calculateConfidence, min_def]⟩
  · intro h
    have h6 := h 6 11 (by decide)
    rw [show getRiskLevel 6 = "HIGH" by decide,
        show getRiskLevel 11 = "EXTREME" by decide] at h6
    exact absurd h6 (by decide)
  · intro h
    have h6 := h 6 11 (by decide)
    simp only at h6
    rw [show calculateConfidence ⟨0, 6⟩ = 7/10 by norm_num [calculateConfidence, min_def],
        show calculateConfidence ⟨0, 11⟩ = 4/5 by norm_num [calculateConfidence, min_def]] at h6
    exact absurd h6 (by norm_num)

/-- C6 amended: every derived field (sentiment, trend, recommended
action, risk tier, confidence) is a pure threshold function of
`change`, with breakpoints in {−10, −5, −2, 0, +2, +5, +10}; risk tier
and confidence genuinely use ±10, the rest use only the claimed subset
{−5, −2, 0, +2, +5}. -/
theorem derived_fields_threshold_funs :
    IsThresholdFun actualBreaks getSentiment ∧
    IsThresholdFun actualBreaks marketTrend ∧
    IsThresholdFun actualBreaks getAction ∧
    IsThresholdFun actualBreaks getRiskLevel ∧
    ∀ p : ℚ, IsThresholdFun actualBreaks (fun c => calculateConfidence ⟨p, c⟩) := by
  refine ⟨?_, ?_, ?_, ?_, ?_⟩
  · intro x y h
    have i5 := (sameSide_le h (by decide : (5:ℚ) ∈ actualBreaks)).1
    have i2 := (sameSide_le h (by decide : (2:ℚ) ∈ actualBreaks)).1
    have im2 := (sameSide_le h (by decide : (-2:ℚ) ∈ actualBreaks)).1
    have im5 := (sameSide_le h (by decide : (-5:ℚ) ∈ actualBreaks)).1
    simp only [getSentiment, ge_iff_le, i5, i2, im2, im5]
  · intro x y h
    have i0 := h 0 (by decide)
    simp only [marketTrend, gt_iff_lt, i0.1, i0.2]
  · intro x y h
    have i5 := (sameSide_le h (by decide : (5:ℚ) ∈ actualBreaks)).1
    have i2 := (sameSide_le h (by decide : (2:ℚ) ∈ actualBreaks)).1
    have im2 := (sameSide_le h (by decide : (-2:ℚ) ∈ actualBreaks)).1
    have im5 := (sameSide_le h (by decide : (-5:ℚ) ∈ actualBreaks)).1
    simp only [getAction, ge_iff_le, i5, i2, im2, im5]
  · intro x y h
    have i10 := sameSide_abs_gt h (by decide : (10:ℚ) ∈ actualBreaks)
      (by decide : (-10:ℚ) ∈ actualBreaks)
    have i5 := sameSide_abs_gt h (by decide : (5:ℚ) ∈ actualBreaks)
      (by decide : (-5:ℚ) ∈ actualBreaks)
    have i2 := sameSide_abs_gt h (by decide : (2:ℚ) ∈ actualBreaks)
      (by decide : (-2:ℚ) ∈ actualBreaks)
    simp only [getRiskLevel, gt_iff_lt, i10, i5, i2]
  · intro p x y h
    have i10 := sameSide_abs_gt h (by decide : (10:ℚ) ∈ actualBreaks)
      (by decide : (-10:ℚ) ∈ actualBreaks)
    have i5 := sameSide_abs_gt h (by decide : (5:ℚ) ∈ actualBreaks)
      (by decide : (-5:ℚ) ∈ actualBreaks)
    simp only [calculateConfidence, gt_iff_lt, i10, i5]

/-- Witness for `derived_fields_threshold_funs`: 3 and 4 share a cell,
as do 6 and 7. -/
theorem derived_fields_threshold_funs_wit :
    getSentiment 3 = getSentiment 4 ∧ getRiskLevel 6 = getRiskLevel 7 ∧
    calculateConfidence ⟨1, 6⟩ = calculateConfidence ⟨1, 7⟩ :=
  ⟨derived_fields_threshold_funs.1 3 4 (by decide),
   derived_fields_threshold_funs.2.2.2.1 6 7 (by decide),
   derived_fields_threshold_funs.2.2.2.2 1 6 7 (by decide)⟩

/-- C10: `calculateConfidence` only ever returns 0.6, 0.7 or 0.8, so
its value lies in [0.6, 0.8]; the `Math.min` caps at 0.95 and 0.85
never bind (0.6+0.2 ≤ 0.95 and 0.6+0.1 ≤ 0.85, so `min` returns the
left argument in both branches). -/
theorem calculateConfidence_three_values (coin : Quote) :
    (calculateConfidence coin = 3/5 ∨ calculateConfidence coin = 7/10 ∨
      calculateConfidence coin = 4/5) ∧
    3/5 ≤ calculateConfidence coin ∧ calculateConfidence coin ≤ 4/5 ∧
    min ((3:ℚ)/5 + 1/5) (19/20) = 3/5 + 1/5 ∧
    min ((3:ℚ)/5 + 1/10) (17/20) = 3/5 + 1/10 := by
  simp only [calculateConfidence]
  split_ifs <;> norm_num

/-- The in-memory price table of src/telegram_bot.js (lines 22-26). -/
structure Prices where
  BTC : Quote
  ETH : Quote
  SOL : Quote
deriving DecidableEq

/-- The aggregate sentiment computed inside `formatSummary`
(src/telegram_bot.js lines 84-87):
`btcChange = prices.BTC.change; sentiment = 😐 中性;
 if btcChange > 2 → 😊 乐观; else if btcChange < -2 → 😟 悲观`.
The remaining lines of `formatSummary` render one line per symbol and
fixed framing text around this label. -/
def summarySentiment (prices : Prices) : String :=
  let btcChange := prices.BTC.change
  if btcChange > 2 then "😊 乐观"
  else if btcChange < -2 then "😟 悲观"
  else "😐 中性"

/-- C8: the summary formatter's aggregate sentiment depends solely on
the BTC change (two price tables agreeing on BTC's change classify the
same), with breakpoints: change > +2 → optimistic, change < −2 →
pessimistic, otherwise neutral. -/
theorem summarySentiment_btc_only (p q : Prices)
    (hpq : p.BTC.change = q.BTC.change) :
    summarySentiment p = summarySentiment q ∧
    (p.BTC.change > 2 → summarySentiment p = "😊 乐观") ∧
    (p.BTC.change < -2 → summarySentiment p = "😟 悲观") ∧
    (-2 ≤ p.BTC.change → p.BTC.change ≤ 2 → summarySentiment p = "😐 中性") := by
  refine ⟨by simp only [summarySentiment, hpq], ?_, ?_, ?_⟩ <;>
    intro h <;> simp only [summarySentiment] <;>
    split_ifs <;> first | rfl | (intros; exfalso; linarith) | (intro h2; rfl)

/-- Witness for `summarySentiment_btc_only` on two tables sharing the
BTC change 3. -/
theorem summarySentiment_btc_only_wit :
    summarySentiment ⟨⟨69443, 3⟩, ⟨2096, 1⟩, ⟨87, 0⟩⟩ =
      summarySentiment ⟨⟨70000, 3⟩, ⟨2000, -4⟩, ⟨90, 2⟩⟩ ∧
    (summarySentiment ⟨⟨69443, 3⟩, ⟨2096, 1⟩, ⟨87, 0⟩⟩ = "😊 乐观") := by
  have h := summarySentiment_btc_only ⟨⟨69443, 3⟩, ⟨2096, 1⟩, ⟨87, 0⟩⟩
    ⟨⟨70000, 3⟩, ⟨2000, -4⟩, ⟨90, 2⟩⟩ rfl
  exact ⟨h.1, h.2.1 (by norm_num)⟩

/-- The Telegram send adapter `sendTelegram`
(src/telegram_bot.js lines 31-45), as a function of the outcome of the
single wrapped transport call (`axios.post`): a normal completion
yields `true`; a raised transport/remote error is caught and yields
`false`.  The adapter's type is `Bool` — it has no error channel, so
no exception propagates past this boundary. -/
def sendTelegram (result : Except String Unit) : Bool :=
  match result with
  | Except.ok _ => true
  | Except.error _ => false

/-- `sendTelegram` run against a queue of pending transport outcomes:
the adapter performs exactly one transport attempt per invocation and
leaves the remaining outcomes untouched (no retry). -/
def sendTelegramQueued (attempts : List (Except String Unit)) :
    Option (Bool × List (Except String Unit)) :=
  match attempts with
  | [] => none
  | r :: rest => some (sendTelegram r, rest)

/-- C7: the notification sink adapter always returns a boolean — true
on successful delivery, false on any transport or remote error (the
error is caught, never re-raised: the result is a normal `some`
return, not an error) — and it consumes exactly one transport attempt
per call, leaving the rest of the queue untouched (no retry). -/
theorem sendTelegram_error_boundary (msg : String)
    (rest : List (Except String Unit)) :
    sendTelegram (Except.ok ()) = true ∧
    sendTelegram (Except.error msg) = false ∧
    sendTelegramQueued (Except.ok () :: rest) = some (true, rest) ∧
    sendTelegramQueued (Except.error msg :: rest) = some (false, rest) :=
  ⟨rfl, rfl, rfl, rfl⟩

/-- The static fallback record for BTC (src/api/handler.js lines 60, 89). -/
def btcFallback : Quote := ⟨69443, -141/100⟩

/-- The static fallback record for ETH (src/api/handler.js lines 61, 90). -/
def ethFallback : Quote := ⟨2096, 180/100⟩

/-- The static fallback record for SOL (src/api/handler.js lines 62, 91). -/
def solFallback : Quote := ⟨8771/100, 39/100⟩

/-- The market block of the main handler's /api/status response. -/
structure StatusMarket where
  btc : Quote
  eth : Quote
  sol : Quote
deriving DecidableEq

/-- The /api/status response of the main handler, keeping the fields
the claims refer to (HTTP status, market block, data_source flag). -/
structure StatusResp where
  status : ℕ
  market : StatusMarket
  data_source : String
deriving DecidableEq

/-- The /api/status route of the main handler
(src/api/handler.js lines 51-70), as a function of the three fetch
results (`null` modelled as `none`): each symbol's output is
`fetched || fallback`, the HTTP status is 200, and `data_source` is
`btc ? 'live' : 'fallback'`. -/
def apiStatus (btc eth sol : Option Quote) : StatusResp :=
  { status := 200,
    market := { btc := btc.getD btcFallback,
                eth := eth.getD ethFallback,
                sol := sol.getD solFallback },
    data_source := if btc.isSome then "live" else "fallback" }

/-- The market block of the part_001 /api/ response: the raw fetch
results are placed in the response without any fallback
(src/unnamed/part_001 line 27: `market: { BTC: btc, ETH: eth, SOL: sol }`). -/
structure Part001Market where
  BTC : Option Quote
  ETH : Option Quote
  SOL : Option Quote
deriving DecidableEq

/-- The part_001 /api/ response (src/unnamed/part_001 lines 19-30):
status 200, raw (possibly null) fetch results, and the sentiment of
`btc?.change || 0`. -/
structure Part001Resp where
  status : ℕ
  market : Part001Market
  market_sentiment : String
deriving DecidableEq

/-- The /api/ route of the part_001 handler
(src/unnamed/part_001 lines 19-30), as a function of the three fetch
results.  `btc?.change || 0` is modelled by
`(btc.map Quote.change).getD 0` (a fetched change of `0` is falsy in
JS and also yields `0`, so the two agree). -/
def part001Api (btc eth sol : Option Quote) : Part001Resp :=
  { status := 200,
    market := { BTC := btc, ETH := eth, SOL := sol },
    market_sentiment := getSentimentPlain ((btc.map Quote.change).getD 0) }

/-- C4 counterexample: on the part_001 data-bearing route (cited by the
claim), a null BTC fetch is not replaced by the static fallback record:
the response still has status 200, but the BTC field is null, not
`{price: 69443, change: -1.41}`. -/
theorem part001_no_fallback :
    (part001Api none none none).status = 200 ∧
    (part001Api none none none).market.BTC = none ∧
    (part001Api none none none).market.BTC ≠ some btcFallback := by
  refine ⟨rfl, rfl, by decide⟩

/-- C4 amended: on the main handler's /api/status route, a null fetch
for any of BTC/ETH/SOL is substituted by the documented static
fallback record exactly and the response has status 200; the part_001
variant also answers 200 but leaves the field null instead of
substituting a fallback. -/
theorem apiStatus_fallback (btc eth sol : Option Quote) :
    (apiStatus btc eth sol).status = 200 ∧
    (btc = none → (apiStatus btc eth sol).market.btc = btcFallback) ∧
    (eth = none → (apiStatus btc eth sol).market.eth = ethFallback) ∧
    (sol = none → (apiStatus btc eth sol).market.sol = solFallback) ∧
    btcFallback = ⟨69443, -141/100⟩ ∧ ethFallback = ⟨2096, 180/100⟩ ∧
    solFallback = ⟨8771/100, 39/100⟩ ∧
    (part001Api btc eth sol).status = 200 ∧
    (btc = none → (part001Api btc eth sol).market.BTC = none) := by
  refine ⟨rfl, ?_, ?_, ?_, rfl, rfl, rfl, rfl, ?_⟩ <;>
    (intro h; subst h; rfl)

/-- Witness for `apiStatus_fallback` with all three fetches failing. -/
theorem apiStatus_fallback_wit :
    (apiStatus none none none).market.btc = btcFallback ∧
    (apiStatus none none none).market.eth = ethFallback ∧
    (apiStatus none none none).market.sol = solFallback ∧
    (part001Api none none none).market.BTC = none := by
  have h := apiStatus_fallback none none none
  exact ⟨h.2.1 rfl, h.2.2.1 rfl, h.2.2.2.1 rfl, h.2.2.2.2.2.2.2.2 rfl⟩

/-- A routing outcome: HTTP status plus the `error` field of the JSON
body, when the body carries one (mapped routes answer 200 with bodies
that have no `error` field; those bodies are modelled elsewhere). -/
structure RouteResp where
  status : ℕ
  error : Option String
deriving DecidableEq

/-- The GET path dispatch of the main module handler
(src/api/handler.js lines 26-213): six mapped route groups, then the
default branch `res.status(404).json({error: 'NOT_OBSERVED', ...})`. -/
def mainDispatch (path : String) : RouteResp :=
  if path = "/" ∨ path = "" then ⟨200, none⟩
  else if path = "/api/status" ∨ path = "/status" then ⟨200, none⟩
  else if path = "/api/market" ∨ path = "/market" then ⟨200, none⟩
  else if path = "/api/signals" ∨ path = "/signals" then ⟨200, none⟩
  else if path = "/api/analysis" ∨ path = "/analysis" then ⟨200, none⟩
  else if path = "/api/config" ∨ path = "/config" then ⟨200, none⟩
  else ⟨404, some "NOT_OBSERVED"⟩

/-- The GET path dispatch of the cron/testing handler (the second
handler in src/api/handler.js, lines 328-367): its default branch
answers `res.status(200).json({observer, endpoints})` — status 200,
no error field — for every unmapped path. -/
def cronDispatch (url : String) : RouteResp :=
  if url = "/" ∨ url = "/health" then ⟨200, none⟩
  else if url = "/api/status" ∨ url = "/status" then ⟨200, none⟩
  else if url = "/api/signals" ∨ url = "/signals" then ⟨200, none⟩
  else ⟨200, none⟩

/-- The GET path dispatch of the part_000 handler
(src/unnamed/part_000 lines 16-62): root serves HTML; paths starting
with `/api/` go to an inner dispatch whose default is
`404 {error: 'NOT_FOUND'}`; everything else is `404 {error: 'NOT_FOUND'}`. -/
def part000Dispatch (url : String) : RouteResp :=
  if url = "/" ∨ url = "" then ⟨200, none⟩
  else if url.startsWith "/api/" then
    if url = "/api/status" ∨ url = "/status" then ⟨200, none⟩
    else if url = "/api/analysis" ∨ url = "/analysis" then ⟨200, none⟩
    else if url = "/api/signals" ∨ url = "/signals" then ⟨200, none⟩
    else ⟨404, some "NOT_FOUND"⟩
  else ⟨404, some "NOT_FOUND"⟩

/-- The GET path dispatch of the part_001 handler
(src/unnamed/part_001 lines 13-32). -/
def part001Dispatch (url : String) : RouteResp :=
  if url = "/" then ⟨200, none⟩
  else if url.startsWith "/api/" then ⟨200, none⟩
  else ⟨404, some "NOT_FOUND"⟩

/-- C5 counterexample: for the unmapped path "/foo", the main module
handler answers 404 but with error "NOT_OBSERVED", not "NOT_FOUND";
and the cron/testing handler (also cited by the claim) answers
status 200, not 404. -/
theorem unmapped_path_counterexample :
    mainDispatch "/foo" = ⟨404, some "NOT_OBSERVED"⟩ ∧
    (mainDispatch "/foo").error ≠ some "NOT_FOUND" ∧
    cronDispatch "/foo" = ⟨200, none⟩ := by
  refine ⟨by decide, by decide, by decide⟩

/-- C5 amended: for every GET path outside its mapped routes, the main
module handler returns 404 with a structured body whose error field is
"NOT_OBSERVED"; the part_000 and part_001 handlers return 404 with
error "NOT_FOUND"; the cron/testing handler never 404s — its default
branch returns 200 (an endpoints listing) for every unmapped path. -/
theorem unmapped_path_routing (path : String)
    (hmain : path ∉ ["/", "", "/api/status", "/status", "/api/market",
      "/market", "/api/signals", "/signals", "/api/analysis", "/analysis",
      "/api/config", "/config"]) :
    mainDispatch path = ⟨404, some "NOT_OBSERVED"⟩ ∧
    (path ∉ ["/", "", "/api/status", "/api/analysis", "/api/signals"] →
      part000Dispatch path = ⟨404, some "NOT_FOUND"⟩) ∧
    (path ≠ "/" → ¬ path.startsWith "/api/" →
      part001Dispatch path = ⟨404, some "NOT_FOUND"⟩) ∧
    (cronDispatch path).status = 200 := by
  simp only [List.mem_cons, List.not_mem_nil, or_false, not_or] at hmain
  obtain ⟨m1, m2, m3, m4, m5, m6, m7, m8, m9, m10, m11, m12⟩ := hmain
  refine ⟨?_, ?_, ?_, ?_⟩
  · simp only [mainDispatch, m1, m2, m3, m4, m5, m6, m7, m8, m9, m10, m11,
      m12, or_self, if_false]
  · intro h0
    simp only [List.mem_cons, List.not_mem_nil, or_false, not_or] at h0
    obtain ⟨_, _, _, _, _⟩ := h0
    simp only [part000Dispatch, m1, m2, or_self, if_false, *]
    split_ifs <;> rfl
  · intro h1 h2
    simp only [part001Dispatch, h1, h2, if_false]
    rfl
  · simp only [cronDispatch]
    split_ifs <;> rfl

/-- Witness for `unmapped_path_routing` at the unmapped path "/foo". -/
theorem unmapped_path_routing_wit :
    mainDispatch "/foo" = ⟨404, some "NOT_OBSERVED"⟩ ∧
    part000Dispatch "/foo" = ⟨404, some "NOT_FOUND"⟩ ∧
    part001Dispatch "/foo" = ⟨404, some "NOT_FOUND"⟩ ∧
    (cronDispatch "/foo").status = 200 := by
  have h := unmapped_path_routing "/foo" (by decide)
  exact ⟨h.1, h.2.1 (by decide), h.2.2.1 (by decide) (by decide), h.2.2.2⟩

/-- JS `x >= b` where `x` may be NaN (`none`): NaN comparisons are
false. -/
def jGe (x : Option ℚ) (b : ℚ) : Bool :=
  match x with
  | some q => decide (b ≤ q)
  | none => false

/-- JS `x > b` where `x` may be NaN. -/
def jGt (x : Option ℚ) (b : ℚ) : Bool :=
  match x with
  | some q => decide (b < q)
  | none => false

/-- JS `x < b` where `x` may be NaN. -/
def jLt (x : Option ℚ) (b : ℚ) : Bool :=
  match x with
  | some q => decide (q < b)
  | none => false

/-- `getSentiment` (src/api/handler.js lines 244-250) applied to a
possibly-NaN argument, with IEEE comparison semantics: every
comparison against NaN is false, so NaN falls through every branch to
the final PANIC label. -/
def getSentimentNum (change : Option ℚ) : String :=
  if jGe change 5 then "EUPHORIA 🚀"
  else if jGe change 2 then "OPTIMISTIC 😊"
  else if jGe change (-2) then "NEUTRAL 😐"
  else if jGe change (-5) then "PESSIMISTIC 😟"
  else "PANIC 📉"

/-- The average change of the /api/market handler
(src/api/handler.js line 82):
`coins.reduce((sum, c) => sum + c.change, 0) / coins.length`.
The reduce of an empty list is 0, and `0 / 0` is NaN in JS, modelled
as `none`; for a non-empty list the average is an exact rational. -/
def avgChange (coins : List Quote) : Option ℚ :=
  if coins.length = 0 then none
  else some ((coins.map Quote.change).sum / coins.length)

/-- The fields of the /api/market response referenced by the claims:
HTTP status, `market_sentiment`, `analysis.trend` and
`analysis.recommendation`.  The `coins` block (fetch results with
static fallbacks) and the constant fields are not referenced. -/
structure MarketResp where
  status : ℕ
  market_sentiment : String
  trend : String
  recommendation : String
deriving DecidableEq

/-- The /api/market route of the main handler (src/api/handler.js
lines 73-99), as a function of the four fetch results:
`coins = [btc, eth, sol, bnb].filter(Boolean)`, the average change of
the surviving coins (NaN when all four are null), and the sentiment /
trend / recommendation ternaries over that average. -/
def apiMarket (btc eth sol bnb : Option Quote) : MarketResp :=
  let coins := [btc, eth, sol, bnb].filterMap id
  let avg := avgChange coins
  { status := 200,
    market_sentiment := getSentimentNum avg,
    trend := if jGt avg 0 then "UPTREND"
             else if jLt avg 0 then "DOWNTREND" else "SIDEWAYS",
    recommendation := if jGt avg 3 then "CAUTIOUSLY_BULLISH"
                      else if jLt avg (-3) then "RISK_AWARE" else "NEUTRAL" }

/-- C9: when all four /api/market fetches fail, the filtered coin list
is empty, the average change is NaN (0/0), and the handler still
answers 200 — but with `market_sentiment` the PANIC label and
`analysis.trend` SIDEWAYS (every NaN comparison is false), not the
NEUTRAL label of the fallback description. -/
theorem apiMarket_all_null_panic :
    ([none, none, none, none] : List (Option Quote)).filterMap id = [] ∧
    avgChange [] = none ∧
    apiMarket none none none none =
      ⟨200, "PANIC 📉", "SIDEWAYS", "NEUTRAL"⟩ ∧
    "PANIC 📉" ≠ "NEUTRAL 😐" := by
  refine ⟨rfl, rfl, rfl, by decide⟩

/-- A cooldown key: symbol plus direction, as built by the template
key of `checkAlert` (src/telegram_bot.js line 65:
`coin_$\x7bdata.change > 0 ? 'up' : 'down'\x7d`-style key; `up` is true
when `change > 0`). -/
structure AlertKey where
  coin : String
  up : Bool
deriving DecidableEq

/-- The direction of a change: `data.change > 0 ? 'up' : 'down'`. -/
def dirUp (change : ℚ) : Bool := decide (0 < change)

/-- The mutable state of the alert loop: the `lastAlert` table
(src/telegram_bot.js line 28) plus the pending `setTimeout` unarm
callbacks, each with its fire time in ms. -/
structure BotState where
  armed : AlertKey → Bool
  timers : List (ℕ × AlertKey)

/-- The state at startup: nothing armed, no pending timers. -/
def initialState : BotState := ⟨fun _ => false, []⟩

/-- Advance the event loop to time `t`: every pending `setTimeout`
callback due at or before `t` runs (`lastAlert[key] = false`,
src/telegram_bot.js line 69) and leaves the pending list. -/
def fireTimers (t : ℕ) (s : BotState) : BotState :=
  { armed := fun k =>
      if k ∈ (s.timers.filter (fun e => decide (e.1 ≤ t))).map Prod.snd
      then false else s.armed k,
    timers := s.timers.filter (fun e => decide (t < e.1)) }

/-- `checkAlert` (src/telegram_bot.js lines 63-73), invoked at absolute
time `t` (ms): the event loop first runs the due unarm callbacks; then
if `abs(data.change) >= alertPercent` and `!lastAlert[key]`, the key is
armed, an unarm is scheduled for `t + 3600000` (the one-hour cooldown)
and the call returns true; otherwise it returns false. -/
def checkAlert (t : ℕ) (coin : String) (data : Quote) (s : BotState) :
    Bool × BotState :=
  let s1 := fireTimers t s
  let key : AlertKey := ⟨coin, dirUp data.change⟩
  if alertPercent ≤ |data.change| ∧ s1.armed key = false then
    (true, { armed := fun k => if k = key then true else s1.armed k,
             timers := s1.timers ++ [(t + 3600000, key)] })
  else (false, s1)

/-- One invocation of `checkAlert`: absolute time, symbol and record. -/
structure Call where
  time : ℕ
  coin : String
  data : Quote

/-- The cooldown key a call addresses. -/
def callKey (c : Call) : AlertKey := ⟨c.coin, dirUp c.data.change⟩

/-- Run a sequence of `checkAlert` invocations, pairing each call with
the boolean it returned. -/
def runCalls (s : BotState) : List Call → BotState × List (Call × Bool)
  | [] => (s, [])
  | c :: rest =>
      let r := checkAlert c.time c.coin c.data s
      let r2 := runCalls r.2 rest
      (r2.1, (c, r.1) :: r2.2)

/-- Key `k` is armed, with its one scheduled unarm due at `T`. -/
def ArmedUntil (k : AlertKey) (T : ℕ) (s : BotState) : Prop :=
  s.armed k = true ∧ (T, k) ∈ s.timers ∧ ∀ e ∈ s.timers, e.2 = k → e.1 = T

theorem fireTimers_preserves {k : AlertKey} {T t : ℕ} {s : BotState}
    (hT : t < T) (h : ArmedUntil k T s) : ArmedUntil k T (fireTimers t s) := by
  obtain ⟨ha, hmem, hall⟩ := h
  refine ⟨?_, ?_, ?_⟩
  · simp only [fireTimers]
    rw [if_neg, ha]
    intro hk
    rw [List.mem_map] at hk
    obtain ⟨e, he, hek⟩ := hk
    rw [List.mem_filter, decide_eq_true_eq] at he
    have hT2 := hall e he.1 hek
    omega
  · simp only [fireTimers, List.mem_filter, decide_eq_true_eq]
    exact ⟨hmem, hT⟩
  · intro e he hk
    simp only [fireTimers, List.mem_filter] at he
    exact hall e he.1 hk

theorem checkAlert_preserves {k : AlertKey} {T : ℕ} {s : BotState}
    {t : ℕ} {c : String} {d : Quote} (hT : t < T) (h : ArmedUntil k T s) :
    ArmedUntil k T (checkAlert t c d s).2 ∧
    (AlertKey.mk c (dirUp d.change) = k → (checkAlert t c d s).1 = false) := by
  have h1 := fireTimers_preserves hT h
  simp only [checkAlert]
  split_ifs with hc
  · have hkey : (AlertKey.mk c (dirUp d.change)) ≠ k := by
      intro he
      rw [he, h1.1] at hc
      exact absurd hc.2 (by decide)
    refine ⟨⟨?_, ?_, ?_⟩, fun he => absurd he hkey⟩
    · simp only
      rw [if_neg (fun hkk => hkey hkk.symm)]
      exact h1.1
    · simp only [List.mem_append]
      exact Or.inl h1.2.1
    · intro e he hek
      simp only [List.mem_append, List.mem_singleton] at he
      rcases he with he | he
      · exact h1.2.2 e he hek
      · rw [he] at hek
        exact absurd hek hkey
  · exact ⟨h1, fun _ => rfl⟩

theorem runCalls_preserves {k : AlertKey} {T : ℕ} {cs : List Call}
    {s : BotState} (hcs : ∀ c ∈ cs, c.time < T) (h : ArmedUntil k T s) :
    ArmedUntil k T (runCalls s cs).1 ∧
    ∀ p ∈ (runCalls s cs).2, callKey p.1 = k → p.2 = false := by
  induction cs generalizing s with
  | nil => exact ⟨h, by simp [runCalls]⟩
  | cons c rest ih =>
    have hstep := @checkAlert_preserves k T s c.time c.coin c.data
      (hcs c (by simp)) h
    have hrest := ih (fun x hx => hcs x (by simp [hx])) hstep.1
    simp only [runCalls]
    refine ⟨hrest.1, ?_⟩
    intro p hp hkey
    simp only [List.mem_cons] at hp
    rcases hp with hp | hp
    · rw [hp] at hkey ⊢
      exact hstep.2 hkey
    · exact hrest.2 p hp hkey

theorem checkAlert_arms {s : BotState} {t : ℕ} {c : String} {d : Quote}
    (hclean : ∀ e ∈ s.timers, e.2 = AlertKey.mk c (dirUp d.change) → e.1 ≤ t)
    (harm : (checkAlert t c d s).1 = true) :
    ArmedUntil ⟨c, dirUp d.change⟩ (t + 3600000) (checkAlert t c d s).2 := by
  simp only [checkAlert] at harm ⊢
  split_ifs at harm ⊢ with hc
  · refine ⟨?_, ?_, ?_⟩
    · simp
    · simp [List.mem_append]
    · intro e he hek
      simp only [List.mem_append, List.mem_singleton] at he
      rcases he with he | he
      · simp only [fireTimers, List.mem_filter, decide_eq_true_eq] at he
        have := hclean e he.1 hek
        omega
      · rw [he]

theorem fireTimers_disarms {k : AlertKey} {T t : ℕ} {s : BotState}
    (hmem : (T, k) ∈ s.timers) (hTt : T ≤ t) :
    (fireTimers t s).armed k = false := by
  simp only [fireTimers]
  rw [if_pos]
  rw [List.mem_map]
  refine ⟨(T, k), ?_, rfl⟩
  rw [List.mem_filter, decide_eq_true_eq]
  exact ⟨hmem, hTt⟩

theorem checkAlert_rearms {k : AlertKey} {T : ℕ} {s : BotState}
    {t : ℕ} {c : String} {d : Quote} (h : ArmedUntil k T s) (hTt : T ≤ t)
    (habs : alertPercent ≤ |d.change|)
    (hkey : AlertKey.mk c (dirUp d.change) = k) :
    (checkAlert t c d s).1 = true := by
  have hdis : (fireTimers t s).armed ⟨c, dirUp d.change⟩ = false := by
    rw [hkey]
    exact fireTimers_disarms h.2.1 hTt
  simp only [checkAlert]
  rw [if_pos ⟨habs, hdis⟩]

/-- C1: once `checkAlert` has returned true at time `t` for a key
(symbol, direction) — arming `lastAlert[key]` and scheduling one unarm
at `t + 3600000` — every later call for the same key within the
one-hour cooldown returns false, and a call at or after `t + 3600000`
(after the scheduled unarm has reset the entry to false) with
`abs(change) >= alertPercent` and the same direction returns true
again.  The hypothesis `hclean` states that any unarm still pending
for this key at arm time is already due; it holds in every state
reachable from startup (an unarmed key never has a pending future
unarm, and `checkAlert` only returns true on an unarmed key). -/
theorem checkAlert_cooldown (s : BotState) (t : ℕ) (coin : String)
    (d : Quote) (cs : List Call) (t2 : ℕ) (d2 : Quote)
    (hclean : ∀ e ∈ s.timers, e.2 = AlertKey.mk coin (dirUp d.change) →
      e.1 ≤ t)
    (harm : (checkAlert t coin d s).1 = true)
    (hcs : ∀ c ∈ cs, t ≤ c.time ∧ c.time < t + 3600000)
    (ht2 : t + 3600000 ≤ t2)
    (habs : alertPercent ≤ |d2.change|)
    (hdir : dirUp d2.change = dirUp d.change) :
    (∀ p ∈ (runCalls (checkAlert t coin d s).2 cs).2,
        p.1.coin = coin → dirUp p.1.data.change = dirUp d.change →
        p.2 = false) ∧
    (checkAlert t2 coin d2
      (runCalls (checkAlert t coin d s).2 cs).1).1 = true := by
  have h0 := checkAlert_arms hclean harm
  have hrun := runCalls_preserves (fun c hc => (hcs c hc).2) h0
  refine ⟨?_, ?_⟩
  · intro p hp hco hdi
    refine hrun.2 p hp ?_
    simp only [callKey, hco, hdi]
  · exact checkAlert_rearms hrun.1 ht2 habs (by rw [hdir])

/-- Witness for `checkAlert_cooldown`: BTC falls 6% at t = 0 and the
alert arms; a 7% fall five minutes later is suppressed; at t = one
hour, after the scheduled unarm, a 9% fall alerts again. -/
theorem checkAlert_cooldown_wit :
    (checkAlert 300000 "BTC" ⟨69000, -7⟩
        (checkAlert 0 "BTC" ⟨69443, -6⟩ initialState).2).1 = false ∧
    (checkAlert 3600000 "BTC" ⟨68000, -9⟩
        (runCalls (checkAlert 0 "BTC" ⟨69443, -6⟩ initialState).2
          [⟨300000, "BTC", ⟨69000, -7⟩⟩]).1).1 = true := by
  have h := checkAlert_cooldown initialState 0 "BTC" ⟨69443, -6⟩
    [⟨300000, "BTC", ⟨69000, -7⟩⟩] 3600000 ⟨68000, -9⟩
    (by simp [initialState]) (by decide) (by decide) (by norm_num)
    (by decide) (by decide)
  refine ⟨?_, h.2⟩
  exact h.1 ⟨⟨300000, "BTC", ⟨69000, -7⟩⟩,
      (checkAlert 300000 "BTC" ⟨69000, -7⟩
        (checkAlert 0 "BTC" ⟨69443, -6⟩ initialState).2).1⟩
    (by simp [runCalls]) rfl (by decide)

end StockSignals
